import Mathlib

/-!
Verification development for the multi-agent orchestration system
(`src/` of the repository `multiagent-ai-system`).

The Python sources are shallowly embedded as executable Lean definitions:

* Python dict payloads that the code treats as JSON values are modelled by
  the inductive type `Json`; dicts with a fixed key set (agent results,
  generation responses, extractor results, task payloads) are modelled as
  Lean structures whose `Option` fields stand for possibly-absent keys.
* The standard-library `json.loads` is modelled by the fuel-based strict
  parser `jsonLoads` (objects, arrays, strings, integers, booleans, null;
  `None` is returned where Python raises `json.JSONDecodeError`).
* `str.find`, `str.rfind`, slicing and `str.strip` are modelled by
  `pyFind`, `pyRFindChar`, `pySlice` and `pyStrip`, with `Option Nat`
  standing for Python's `-1` failure convention.
* The remote OpenAI call inside `GenAIClient.generate_response` is an
  external collaborator; it is modelled by a provider function argument of
  type `Provider`.  A raised provider exception is `Except.error msg`.
* Database side effects (`create_task`, `log_interaction`,
  `update_task_status` of `src/data/database.py`) are modelled as an
  explicit `World` state threaded through the orchestrator; table rows are
  recorded as append-only event lists.
-/

namespace MAS

/-- JSON values, as produced by the `json` standard library used throughout
the agents and the MCP handler. -/
inductive Json where
  | null
  | bool (b : Bool)
  | int (n : Int)
  | str (s : String)
  | arr (elems : List Json)
  | obj (fields : List (String × Json))

/-- Model of Python `dict.get(key, default)` on a parsed JSON object: the
first binding of `key` when the value is an object holding one, otherwise
`none`.  (The agents only ever call `.get` on values produced by
`json.loads` from a string starting with a brace, hence on objects.) -/
def jGet (j : Json) (key : String) : Option Json :=
  match j with
  | .obj kvs =>
    match kvs.find? (fun p => p.1 = key) with
    | some p => some p.2
    | none => none
  | _ => none

/-- Python `dict.get(key, default)` with an explicit default. -/
def jGetD (j : Json) (key : String) (d : Json) : Json :=
  (jGet j key).getD d

/-- Whitespace recognised by the JSON grammar and by Python `str.strip`
on the strings appearing in this code base. -/
def isWsChar (c : Char) : Bool :=
  c = ' ' || c = '\n' || c = '\t' || c = '\r'

/-- Drop leading JSON whitespace. -/
def skipWs (cs : List Char) : List Char :=
  cs.dropWhile isWsChar

/-- Model of Python `str.strip()` (default whitespace set). -/
def pyStrip (s : String) : String :=
  ⟨((s.data.dropWhile isWsChar).reverse.dropWhile isWsChar).reverse⟩

/-- Does `sub` start the character list `hay`? -/
def leadsList : List Char → List Char → Bool
  | [], _ => true
  | _ :: _, [] => false
  | a :: as, b :: bs => a = b && leadsList as bs

/-- First index (counting from `i`) at which `sub` occurs in `hay`. -/
def findIdxAux (sub : List Char) : List Char → Nat → Option Nat
  | hay, i =>
    if leadsList sub hay then some i
    else
      match hay with
      | [] => none
      | _ :: t => findIdxAux sub t (i + 1)

/-- Model of Python `str.find(sub, start)`: index of the first occurrence
of `sub` at or after `start`, `none` standing for Python's `-1`. -/
def pyFind (s sub : String) (start : Nat) : Option Nat :=
  match findIdxAux sub.data (s.data.drop start) 0 with
  | some k => some (start + k)
  | none => none

/-- Model of Python `str.find(c)` for a single character. -/
def pyFindChar (s : String) (c : Char) : Option Nat :=
  pyFind s ⟨[c]⟩ 0

/-- Last index at which character `c` occurs in the list. -/
def rFindCharAux (c : Char) : List Char → Option Nat
  | [] => none
  | a :: t =>
    match rFindCharAux c t with
    | some k => some (k + 1)
    | none => if a = c then some 0 else none

/-- Model of Python `str.rfind(c)` for a single character, `none` standing
for Python's `-1`. -/
def pyRFindChar (s : String) (c : Char) : Option Nat :=
  rFindCharAux c s.data

/-- Model of the Python slice `s[i:j]`. -/
def pySlice (s : String) (i j : Nat) : String :=
  ⟨(s.data.drop i).take (j - i)⟩

/-- Parse the JSON escape following a backslash. -/
def unescape (c : Char) : Option Char :=
  if c = '"' then some '"'
  else if c = '\\' then some '\\'
  else if c = '/' then some '/'
  else if c = 'n' then some '\n'
  else if c = 't' then some '\t'
  else if c = 'r' then some '\r'
  else none

/-- Parse the body of a JSON string literal (the opening quote already
consumed), returning the string and the remaining input. -/
def parseStrBody : List Char → Option (String × List Char)
  | [] => none
  | '"' :: rest => some ("", rest)
  | '\\' :: e :: rest =>
    match unescape e with
    | some c =>
      match parseStrBody rest with
      | some (s, rest2) => some (⟨c :: s.data⟩, rest2)
      | none => none
    | none => none
  | c :: rest =>
    match parseStrBody rest with
    | some (s, rest2) => some (⟨c :: s.data⟩, rest2)
    | none => none

/-- Parse a run of decimal digits into a natural number. -/
def parseDigits : List Char → Nat → Option (Nat × List Char)
  | c :: rest, acc =>
    if c.isDigit then
      match parseDigits rest (acc * 10 + (c.toNat - '0'.toNat)) with
      | some r => some r
      | none => some (acc * 10 + (c.toNat - '0'.toNat), rest)
    else none
  | [], _ => none

/-- Parse a (possibly signed) decimal integer. -/
def parseIntLit : List Char → Option (Int × List Char)
  | '-' :: rest =>
    match parseDigits rest 0 with
    | some (n, rest2) => some (-(n : Int), rest2)
    | none => none
  | cs =>
    match parseDigits cs 0 with
    | some (n, rest) => some ((n : Int), rest)
    | none => none

mutual

/-- Fuel-based recursive-descent parser for a JSON value, modelling the
grammar accepted by `json.loads` (restricted to integer numerals, which
covers every literal this code base produces or consumes). -/
def parseVal : Nat → List Char → Option (Json × List Char)
  | 0, _ => none
  | n + 1, cs =>
    match skipWs cs with
    | [] => none
    | c :: rest =>
      if c = '{' then
        match skipWs rest with
        | '}' :: rest2 => some (.obj [], rest2)
        | _ => match parseMembers n rest with
          | some (kvs, rest2) => some (.obj kvs, rest2)
          | none => none
      else if c = '[' then
        match skipWs rest with
        | ']' :: rest2 => some (.arr [], rest2)
        | _ => match parseElems n rest with
          | some (xs, rest2) => some (.arr xs, rest2)
          | none => none
      else if c = '"' then
        match parseStrBody rest with
        | some (s, rest2) => some (.str s, rest2)
        | none => none
      else if leadsList "true".data (c :: rest) then
        some (.bool true, (c :: rest).drop 4)
      else if leadsList "false".data (c :: rest) then
        some (.bool false, (c :: rest).drop 5)
      else if leadsList "null".data (c :: rest) then
        some (.null, (c :: rest).drop 4)
      else
        match parseIntLit (c :: rest) with
        | some (k, rest2) => some (.int k, rest2)
        | none => none

/-- Parse the comma-separated members of a JSON object (after `{`). -/
def parseMembers : Nat → List Char → Option (List (String × Json) × List Char)
  | 0, _ => none
  | n + 1, cs =>
    match skipWs cs with
    | '"' :: rest =>
      match parseStrBody rest with
      | some (k, rest2) =>
        match skipWs rest2 with
        | ':' :: rest3 =>
          match parseVal n rest3 with
          | some (v, rest4) =>
            match skipWs rest4 with
            | ',' :: rest5 =>
              match parseMembers n rest5 with
              | some (kvs, rest6) => some ((k, v) :: kvs, rest6)
              | none => none
            | '}' :: rest5 => some ([(k, v)], rest5)
            | _ => none
          | none => none
        | _ => none
      | none => none
    | _ => none

/-- Parse the comma-separated elements of a JSON array (after `[`). -/
def parseElems : Nat → List Char → Option (List Json × List Char)
  | 0, _ => none
  | n + 1, cs =>
    match parseVal n cs with
    | some (x, rest) =>
      match skipWs rest with
      | ',' :: rest2 =>
        match parseElems n rest2 with
        | some (xs, rest3) => some (x :: xs, rest3)
        | none => none
      | ']' :: rest2 => some ([x], rest2)
      | _ => none
    | none => none

end

/-- Model of `json.loads`: strict parse of a complete document, `none`
where Python raises `json.JSONDecodeError` (including trailing garbage). -/
def jsonLoads (s : String) : Option Json :=
  match parseVal (s.length + 1) s.data with
  | some (j, rest) => if skipWs rest = [] then some j else none
  | none => none

mutual

/-- Serialisation of a JSON value, modelling `json.dumps` (the `indent=2`
pretty-printing used in prompt construction is abstracted to the compact
form; the prompts only flow into the opaque provider argument). -/
def jsonDumps : Json → String
  | .null => "null"
  | .bool true => "true"
  | .bool false => "false"
  | .int n => toString n
  | .str s => "\"" ++ s ++ "\""
  | .arr xs => "[" ++ dumpList xs ++ "]"
  | .obj kvs => "\x7b" ++ dumpFields kvs ++ "\x7d"

/-- Comma-separated serialisation of array elements. -/
def dumpList : List Json → String
  | [] => ""
  | [x] => jsonDumps x
  | x :: xs => jsonDumps x ++ ", " ++ dumpList xs

/-- Comma-separated serialisation of object members. -/
def dumpFields : List (String × Json) → String
  | [] => ""
  | [(k, v)] => "\"" ++ k ++ "\": " ++ jsonDumps v
  | (k, v) :: kvs => "\"" ++ k ++ "\": " ++ jsonDumps v ++ ", " ++ dumpFields kvs

end

/-- Model of Python `str(x)` on a JSON value as used when a `.get` result
is interpolated into an f-string: a top-level string renders bare,
anything else renders as its serialised form. -/
def pyStr : Json → String
  | .str s => s
  | j => jsonDumps j

/-! ## Generation Client (`src/core/genai_client.py`) -/

/-- Token-usage counters of a successful provider response. -/
structure Usage where
  prompt_tokens : Nat
  completion_tokens : Nat
  total_tokens : Nat

/-- A role-tagged chat message. -/
structure Message where
  role : String
  content : String

/-- Arguments with which `GenAIClient.generate_response` invokes the
remote `chat.completions.create` call. -/
structure ProviderArgs where
  messages : List Message
  model : String
  temperature : Rat
  max_tokens : Nat

/-- The remote OpenAI provider, an external collaborator: given the call
arguments it either returns content text with usage counters or raises,
modelled as `Except.error` carrying `str(e)`. -/
def Provider : Type :=
  ProviderArgs → Except String (String × Usage)

/-- Dict returned by `GenAIClient.generate_response`: on provider success
the content plus usage dict (`role = "assistant"`); on provider failure
the recovered error dict whose `content` is the human-readable message and
whose `error` key is present and `True` (`role = "system"`).  The absent
`error` key of the success dict is modelled as `error := false`. -/
structure GenResponse where
  content : String
  role : String
  model : Option String := none
  usage : Option Usage := none
  error : Bool := false

/-- Model of `GenAIClient.generate_response(messages, model, temperature,
max_tokens)` (Python defaults: `model="gpt-3.5-turbo"`, `temperature=0.7`,
`max_tokens=1000`; every call site below passes them explicitly).  The
function performs no validation of any argument: it forwards them verbatim
to the provider and recovers a raised provider exception as the
error-flagged response dict.  The second component of the result records
the arguments the provider was invoked with. -/
def generate_response (provider : Provider) (messages : List Message)
    (model : String) (temperature : Rat) (max_tokens : Nat) :
    GenResponse × ProviderArgs :=
  let args : ProviderArgs :=
    { messages := messages, model := model, temperature := temperature,
      max_tokens := max_tokens }
  match provider args with
  | .ok (content, usage) =>
    ({ content := content, role := "assistant", model := some model,
       usage := some usage }, args)
  | .error e =>
    ({ content := "Erro ao gerar resposta: " ++ e, role := "system",
       error := true }, args)

/-! ## MCP handler (`src/orchestrator/protocols/mcp_handler.py`) -/

/-- Model of `MCPHandler.create_context`: system prompt first, then the
optional history in original order, then the user message last. -/
def create_context (system_prompt user_message : String)
    (history : List Message) : List Message :=
  ⟨"system", system_prompt⟩ :: history ++ [⟨"user", user_message⟩]

/-- Role-specific tail of the front-end system prompt
(`create_agent_prompt`, second definition, which overrides the first in
the Python class body). -/
def frontRoleTail : String :=
  "Como agente de front-end, você deve:\n" ++
  "1. Analisar requisitos de interface do usuário\n" ++
  "2. Projetar componentes visuais e interações\n" ++
  "3. Considerar a experiência do usuário e acessibilidade\n" ++
  "4. Comunicar claramente suas decisões de design\n\n" ++
  "Responda em formato JSON quando possível, incluindo:\n" ++
  "- \"analysis\": sua análise dos requisitos\n" ++
  "- \"components\": componentes de UI propostos\n" ++
  "- \"interactions\": fluxos de interação\n" ++
  "- \"summary\": resumo das suas conclusões\n"

/-- Role-specific tail of the back-end system prompt. -/
def backRoleTail : String :=
  "Como agente de back-end, você deve:\n" ++
  "1. Analisar requisitos técnicos e de dados\n" ++
  "2. Projetar APIs, modelos de dados e lógica de negócios\n" ++
  "3. Considerar segurança, desempenho e escalabilidade\n" ++
  "4. Implementar soluções robustas e testáveis\n\n" ++
  "Responda em formato JSON quando possível, incluindo:\n" ++
  "- \"analysis\": sua análise técnica\n" ++
  "- \"data_models\": modelos de dados propostos\n" ++
  "- \"apis\": endpoints e funcionalidades\n" ++
  "- \"logic\": lógica de negócios principal\n" ++
  "- \"summary\": resumo das suas conclusões\n"

/-- Role-specific tail of the QA system prompt. -/
def qaRoleTail : String :=
  "Como agente de QA, você deve:\n" ++
  "1. Verificar se os requisitos foram atendidos\n" ++
  "2. Identificar possíveis problemas ou bugs\n" ++
  "3. Sugerir melhorias e otimizações\n" ++
  "4. Garantir a qualidade geral da solução\n\n" ++
  "Responda em formato JSON quando possível, incluindo:\n" ++
  "- \"verification\": resultados da verificação\n" ++
  "- \"issues\": problemas encontrados\n" ++
  "- \"improvements\": sugestões de melhoria\n" ++
  "- \"quality_score\": pontuação de qualidade (0-10)\n" ++
  "- \"summary\": resumo das suas conclusões\n"

/-- Model of `MCPHandler.create_agent_prompt` (the second, overriding
definition): a shared header followed by a role-specific tail, the header
alone for an unknown role. -/
def create_agent_prompt (agent_role task_description : String) : String :=
  let base :=
    "Você é um agente especializado em " ++ agent_role ++
    " em um sistema multi-agente.\nSua tarefa atual é: " ++
    task_description ++ "\n\n"
  if agent_role = "front-end" then base ++ frontRoleTail
  else if agent_role = "back-end" then base ++ backRoleTail
  else if agent_role = "qa" then base ++ qaRoleTail
  else base

/-- Dict returned by `MCPHandler.extract_response`: the raw content, the
optional parsed object and the `has_structured_data` flag. -/
structure ExtractResult where
  content : String
  structured_data : Option Json := none
  has_structured_data : Bool

/-- The fenced-JSON scan of `extract_response` as one function: the
stripped text between a `³³³json` opener and the next `³³³` fence (fences
written here with `³` in place of the backtick), when both are found. -/
def fencedBlock (content : String) : Option String :=
  match pyFind content "```json" 0 with
  | none => none
  | some js =>
    match pyFind content "```" (js + 7) with
    | none => none
    | some je => some (pyStrip (pySlice content (js + 7) je))

/-- Model of `MCPHandler.extract_response`: look for a fenced JSON block
(`content.find` of the opener, then of the closing fence after it); when
both fences are present, strictly parse the stripped enclosed text and on
success return it as structured data; on a missing fence or a parse
failure (the caught `json.loads` exception) fall through to the plain
shape carrying only the text.  The outer `except` branch of the Python
function is unreachable (no statement it guards can raise) and has no
counterpart here. -/
def extract_response (model_response : GenResponse) : ExtractResult :=
  let content := model_response.content
  match pyFind content "```json" 0 with
  | none => { content := content, has_structured_data := false }
  | some js =>
    match pyFind content "```" (js + 7) with
    | none => { content := content, has_structured_data := false }
    | some je =>
      let json_content := pyStrip (pySlice content (js + 7) je)
      match jsonLoads json_content with
      | some parsed =>
        { content := content, structured_data := some parsed,
          has_structured_data := true }
      | none => { content := content, has_structured_data := false }

/-! ## Shared task and result dict shapes -/

/-- The `task_data` dict supplied by the caller of the orchestrators
(`title`, `description`, `user_id`, `project_id`; every key optional,
read with `.get` defaults). -/
structure TaskData where
  title : Option String := none
  description : Option String := none
  user_id : Option Int := none
  project_id : Option Int := none

/-- The task dict handed to an agent `execute_task` (built by the
orchestrators); each `Option` field stands for a possibly-absent key.
`task_id` is a `Json` value because the persistence-backed orchestrator
passes a database integer while the agents-module orchestrator passes a
UUID string. -/
structure PyTask where
  action : Option String := none
  task_id : Option Json := none
  task_data : TaskData := {}
  status : Option String := none
  front_analysis : Option Json := none
  back_result : Option Json := none
  qa_result : Option Json := none
  final_result : Option Json := none
  requirements : Option Json := none
  code : Option String := none
  data_model : Option Json := none
  api_code : Option String := none
  ui_code : Option String := none
  tests : Option String := none
  security : Option Json := none

/-- The result dict an agent `execute_task` returns; the union of the keys
produced by the nine action handlers, each `Option` field standing for a
possibly-absent key.  `summary` and `quality_score` are `Json` because the
handlers store raw `.get` results there. -/
structure AgentResult where
  success : Bool
  error : Option String := none
  analysis : Option Json := none
  response : Option Json := none
  code : Option String := none
  tests : Option String := none
  audit : Option Json := none
  verification : Option Json := none
  data_model : Option Json := none
  user_response : Option String := none
  processing_result : Option Json := none
  verification_result : Option Json := none
  quality_score : Option Json := none
  task_id : Option Json := none
  summary : Option Json := none

/-- The dict view of an `AgentResult`, used where the orchestrators store
a whole stage result under a task key that is later `json.dumps`-ed into a
prompt. -/
def resultToJson (r : AgentResult) : Json :=
  .obj (
    [("success", Json.bool r.success)]
    ++ (match r.error with | some e => [("error", Json.str e)] | none => [])
    ++ (match r.analysis with | some j => [("analysis", j)] | none => [])
    ++ (match r.response with | some j => [("response", j)] | none => [])
    ++ (match r.code with | some s => [("code", Json.str s)] | none => [])
    ++ (match r.tests with | some s => [("tests", Json.str s)] | none => [])
    ++ (match r.audit with | some j => [("audit", j)] | none => [])
    ++ (match r.verification with | some j => [("verification", j)] | none => [])
    ++ (match r.data_model with | some j => [("data_model", j)] | none => [])
    ++ (match r.user_response with | some s => [("user_response", Json.str s)] | none => [])
    ++ (match r.processing_result with | some j => [("processing_result", j)] | none => [])
    ++ (match r.verification_result with | some j => [("verification_result", j)] | none => [])
    ++ (match r.quality_score with | some j => [("quality_score", j)] | none => [])
    ++ (match r.task_id with | some j => [("task_id", j)] | none => [])
    ++ (match r.summary with | some j => [("summary", j)] | none => []))

/-- Dict returned by the agents `process_message`: the flag, the processed
extractor output and the agent name. -/
structure MsgResult where
  success : Bool
  response : ExtractResult
  agent : String

/-! ## Base agent (`src/core/base_agent.py`) -/

/-- The mutable per-agent state: the `memory` list of message dicts. -/
structure AgentState where
  memory : List Json := []

/-- Model of `BaseAgent.add_to_memory`: append the message. -/
def add_to_memory (st : AgentState) (message : Json) : AgentState :=
  { st with memory := st.memory ++ [message] }

/-- Model of `BaseAgent.get_memory`. -/
def get_memory (st : AgentState) : List Json :=
  st.memory

/-- Model of `BaseAgent.clear_memory`: reset the memory to the empty
list. -/
def clear_memory (st : AgentState) : AgentState :=
  { st with memory := [] }

/-- Representative rendering of `str(e)` for a caught
`json.JSONDecodeError`; the agents only embed this text in the failure
message, never branch on it. -/
def jsonDecodeErrMsg : String :=
  "Expecting value"

/-- The `analysis` dict substituted when no brace-delimited JSON region is
found in the generation content (shared verbatim by the three
extract-and-parse handlers). -/
def noJsonFound : Json :=
  .obj [("error", .str "Formato JSON não encontrado na resposta")]

/-- The brace scan shared by `_analyze_task`, `_process_task`,
`_analyze_data_model`, `_verify_result` and `_security_audit`:
`json_start = content.find(brace)`, `json_end = content.rfind(brace) + 1`,
and the guard `json_start >= 0 and json_end > json_start`; on success the
slice `content[json_start:json_end]`.  Python's `-1` failure value makes
the guard fail whenever either brace is missing. -/
def braceRegion (content : String) : Option String :=
  match pyFindChar content '\x7b' with
  | none => none
  | some js =>
    let je := match pyRFindChar content '\x7d' with
      | some r => r + 1
      | none => 0
    if js < je then some (pySlice content js je) else none

/-! ## Front agent (`src/agents/front_agent.py`)

The Python file carries a merge artifact: stray prose at lines 214-216 and
a second, truncated pair of `_analyze_task` / `_prepare_response` bodies
after it.  The methods modelled here are the complete first definitions
(lines 86-212), which are the ones the claims cite. -/

/-- Model of `FrontAgent._analyze_task`: build the analysis prompt, call
the client at temperature 0.7, scan the content for a brace-delimited
region and `json.loads` it; a parse exception is caught and returned as a
failure, while a missing region degrades to the `noJsonFound` analysis
with `success=True`. -/
def frontAnalyzeTask (provider : Provider) (st : AgentState) (t : PyTask) :
    AgentState × AgentResult :=
  let td := t.task_data
  let prompt :=
    "Como agente de front-end, analise a seguinte tarefa e identifique os requisitos de interface:\n\n" ++
    "Título: " ++ td.title.getD "Sem título" ++ "\n" ++
    "Descrição: " ++ td.description.getD "Sem descrição" ++ "\n\n" ++
    "Forneça sua análise no seguinte formato JSON:\n" ++
    "\x7b\n    \"componentes\": [\"lista de componentes UI necessários\"],\n" ++
    "    \"tecnologias\": [\"tecnologias recomendadas\"],\n" ++
    "    \"requisitos_ui\": [\"requisitos específicos de UI\"],\n" ++
    "    \"consideracoes\": [\"considerações importantes\"],\n" ++
    "    \"summary\": \"resumo em uma frase\"\n\x7d\n"
  let model_messages := create_context prompt "" []
  let response := (generate_response provider model_messages "gpt-3.5-turbo" (7/10) 1000).1
  let content := response.content
  let result : AgentResult :=
    match braceRegion content with
    | some json_str =>
      match jsonLoads json_str with
      | some analysis =>
        { success := true, analysis := some analysis, task_id := t.task_id,
          summary := some (jGetD analysis "summary" (.str "Análise de interface concluída")) }
      | none =>
        { success := false,
          error := some ("Erro ao analisar resposta: " ++ jsonDecodeErrMsg),
          task_id := t.task_id }
    | none =>
      { success := true, analysis := some noJsonFound, task_id := t.task_id,
        summary := some (jGetD noJsonFound "summary" (.str "Análise de interface concluída")) }
  (st, result)

/-- Model of `FrontAgent._prepare_response` (first definition, lines
139-175): build the final-response prompt from the QA result, call the
client at temperature 0.7, and return `success=True` with the raw content
as the `response` — the error flag of a recovered provider failure is
never inspected. -/
def frontPrepareResponse (provider : Provider) (st : AgentState) (t : PyTask) :
    AgentState × AgentResult :=
  let td := t.task_data
  let qa_result := t.qa_result.getD (.obj [])
  let prompt :=
    "Como agente de front-end, prepare a resposta final para o usuário com base nos resultados do QA:\n\n" ++
    "Título: " ++ td.title.getD "Sem título" ++ "\n" ++
    "Descrição: " ++ td.description.getD "Sem descrição" ++ "\n\n" ++
    "Resultados QA: " ++ jsonDumps qa_result ++ "\n\n" ++
    "Forneça uma resposta completa que inclua:\n" ++
    "1. Um resumo do que foi implementado\n" ++
    "2. Os componentes de interface criados\n" ++
    "3. Instruções de uso\n" ++
    "4. Quaisquer considerações importantes\n\n" ++
    "Formate sua resposta em HTML simples para melhor visualização.\n"
  let model_messages := create_context prompt "" []
  let response := (generate_response provider model_messages "gpt-3.5-turbo" (7/10) 1000).1
  (st, { success := true, response := some (.str response.content),
         task_id := t.task_id, summary := some (.str "Resposta final preparada") })

/-- Model of `FrontAgent._generate_ui_code`: build the UI-code prompt,
call the client at temperature 0.7 with `max_tokens=2000`, and return
`success=True` with the raw content as the generated code. -/
def frontGenerateUiCode (provider : Provider) (st : AgentState) (t : PyTask) :
    AgentState × AgentResult :=
  let td := t.task_data
  let requirements := t.requirements.getD (.obj [])
  let prompt :=
    "Como agente de front-end, gere código de interface para a seguinte tarefa:\n\n" ++
    "Título: " ++ td.title.getD "Sem título" ++ "\n" ++
    "Descrição: " ++ td.description.getD "Sem descrição" ++ "\n\n" ++
    "Requisitos: " ++ jsonDumps requirements ++ "\n\n" ++
    "Gere código HTML, CSS e JavaScript moderno para implementar esta interface.\n" ++
    "Use as melhores práticas de acessibilidade e responsividade.\n"
  let model_messages := create_context prompt "" []
  let response := (generate_response provider model_messages "gpt-3.5-turbo" (7/10) 2000).1
  (st, { success := true, code := some response.content,
         task_id := t.task_id, summary := some (.str "Código de interface gerado") })

/-- Model of `FrontAgent.execute_task`: dispatch on `task.get("action",
"")`; an unrecognised action returns the named failure dict. -/
def frontExecuteTask (provider : Provider) (st : AgentState) (t : PyTask) :
    AgentState × AgentResult :=
  let action := t.action.getD ""
  if action = "analyze_task" then frontAnalyzeTask provider st t
  else if action = "prepare_response" then frontPrepareResponse provider st t
  else if action = "generate_ui_code" then frontGenerateUiCode provider st t
  else (st, { success := false, error := some ("Ação desconhecida: " ++ action) })

/-- Model of `FrontAgent.process_message`: append the message to memory,
build the role prompt and context, call the client at temperature 0.7 and
return the extractor output. -/
def frontProcessMessage (provider : Provider) (st : AgentState) (message : Json) :
    AgentState × MsgResult :=
  let st := add_to_memory st message
  let msgContent := jGetD message "content" (.obj [])
  let prompt := create_agent_prompt "front-end"
    (pyStr (jGetD msgContent "description" (.str "Analisar requisitos de interface")))
  let model_messages := create_context prompt (pyStr msgContent) []
  let response := (generate_response provider model_messages "gpt-3.5-turbo" (7/10) 1000).1
  let processed := extract_response response
  (st, { success := true, response := processed, agent := "FrontAgent" })

/-! ## Back agent (`src/agents/back_agent.py`)

The Python file carries the same merge artifact (a truncated second
`_process_task` body after line 250); the methods modelled here are the
complete first definitions, which are the ones the claims cite. -/

/-- The format template interpolated into the `_process_task` prompt.  In
the source it is a brace expression inside the f-string, i.e. a dict
literal evaluated and str-formatted at runtime; it is rendered here with
`jsonDumps`. -/
def backFormatDict : Json :=
  .obj [
    ("endpoints", .arr [.str "lista de endpoints necessários"]),
    ("modelos_dados", .arr [.str "modelos de dados necessários"]),
    ("logica_negocio", .arr [.str "regras de negócio identificadas"]),
    ("consideracoes_tecnicas", .arr [.str "considerações técnicas importantes"]),
    ("summary", .str "resumo em uma frase")]

/-- Model of `BackAgent._process_task`: build the processing prompt from
the front analysis, call the client at temperature 0.5, scan for a
brace-delimited region and `json.loads` it, with the same
success/degrade/failure shape as `frontAnalyzeTask`. -/
def backProcessTask (provider : Provider) (st : AgentState) (t : PyTask) :
    AgentState × AgentResult :=
  let td := t.task_data
  let front_analysis := t.front_analysis.getD (.obj [])
  let prompt :=
    "Como agente de back-end, processe a seguinte tarefa com base na análise do front-end:\n\n" ++
    "Título: " ++ td.title.getD "Sem título" ++ "\n" ++
    "Descrição: " ++ td.description.getD "Sem descrição" ++ "\n" ++
    "Análise do Front-End: " ++ jsonDumps front_analysis ++ "\n\n" ++
    "Forneça sua análise no seguinte formato JSON:\n" ++
    jsonDumps backFormatDict ++ "\n"
  let model_messages := create_context prompt "" []
  let response := (generate_response provider model_messages "gpt-3.5-turbo" (1/2) 1000).1
  let content := response.content
  let result : AgentResult :=
    match braceRegion content with
    | some json_str =>
      match jsonLoads json_str with
      | some analysis =>
        { success := true, analysis := some analysis, task_id := t.task_id,
          summary := some (jGetD analysis "summary" (.str "Processamento de back-end concluído")) }
      | none =>
        { success := false,
          error := some ("Erro ao analisar resposta: " ++ jsonDecodeErrMsg),
          task_id := t.task_id }
    | none =>
      { success := true, analysis := some noJsonFound, task_id := t.task_id,
        summary := some (jGetD noJsonFound "summary" (.str "Processamento de back-end concluído")) }
  (st, result)

/-- Model of `BackAgent._generate_api`: build the API-code prompt, call
the client at temperature 0.5 with `max_tokens=2000`, and return
`success=True` with the raw content as the generated code — the error
flag of a recovered provider failure is never inspected. -/
def backGenerateApi (provider : Provider) (st : AgentState) (t : PyTask) :
    AgentState × AgentResult :=
  let td := t.task_data
  let requirements := t.requirements.getD (.obj [])
  let prompt :=
    "Como agente de back-end, gere código de API para a seguinte tarefa:\n\n" ++
    "Título: " ++ td.title.getD "Sem título" ++ "\n" ++
    "Descrição: " ++ td.description.getD "Sem descrição" ++ "\n\n" ++
    "Requisitos: " ++ jsonDumps requirements ++ "\n\n" ++
    "Gere código Python usando Flask ou FastAPI para implementar esta API.\n" ++
    "Use as melhores práticas de segurança, validação e documentação.\n"
  let model_messages := create_context prompt "" []
  let response := (generate_response provider model_messages "gpt-3.5-turbo" (1/2) 2000).1
  (st, { success := true, code := some response.content,
         task_id := t.task_id, summary := some (.str "Código de API gerado") })

/-- The data-model format template of `_analyze_data_model` (literal
double braces in the f-string, rendered to single braces). -/
def backDataModelTemplate : String :=
  "\x7b\n    \"entidades\": [\n        \x7b\n            \"nome\": \"nome_da_entidade\",\n" ++
  "            \"atributos\": [\n                \x7b\n                    \"nome\": \"nome_do_atributo\",\n" ++
  "                    \"tipo\": \"tipo_do_atributo\",\n                    \"descricao\": \"descrição do atributo\"\n" ++
  "                \x7d\n            ],\n            \"relacionamentos\": [\n                \x7b\n" ++
  "                    \"entidade\": \"entidade_relacionada\",\n                    \"tipo\": \"tipo_de_relacionamento\",\n" ++
  "                    \"descricao\": \"descrição do relacionamento\"\n                \x7d\n            ]\n" ++
  "        \x7d\n    ],\n    \"summary\": \"resumo em uma frase\"\n\x7d\n"

/-- Model of `BackAgent._analyze_data_model`: build the data-model prompt,
call the client at temperature 0.5 with `max_tokens=1500`, scan for a
brace-delimited region and `json.loads` it, with the same
success/degrade/failure shape as the other parse handlers (result key
`data_model`). -/
def backAnalyzeDataModel (provider : Provider) (st : AgentState) (t : PyTask) :
    AgentState × AgentResult :=
  let td := t.task_data
  let prompt :=
    "Como agente de back-end, analise e proponha modelos de dados para a seguinte tarefa:\n\n" ++
    "Título: " ++ td.title.getD "Sem título" ++ "\n" ++
    "Descrição: " ++ td.description.getD "Sem descrição" ++ "\n\n" ++
    "Forneça sua análise no seguinte formato JSON:\n" ++ backDataModelTemplate
  let model_messages := create_context prompt "" []
  let response := (generate_response provider model_messages "gpt-3.5-turbo" (1/2) 1500).1
  let content := response.content
  let result : AgentResult :=
    match braceRegion content with
    | some json_str =>
      match jsonLoads json_str with
      | some analysis =>
        { success := true, data_model := some analysis, task_id := t.task_id,
          summary := some (jGetD analysis "summary" (.str "Modelo de dados analisado")) }
      | none =>
        { success := false,
          error := some ("Erro ao analisar resposta: " ++ jsonDecodeErrMsg),
          task_id := t.task_id }
    | none =>
      { success := true, data_model := some noJsonFound, task_id := t.task_id,
        summary := some (jGetD noJsonFound "summary" (.str "Modelo de dados analisado")) }
  (st, result)

/-- Model of `BackAgent.execute_task`: dispatch on `task.get("action",
"")`; an unrecognised action returns the named failure dict. -/
def backExecuteTask (provider : Provider) (st : AgentState) (t : PyTask) :
    AgentState × AgentResult :=
  let action := t.action.getD ""
  if action = "process_task" then backProcessTask provider st t
  else if action = "generate_api" then backGenerateApi provider st t
  else if action = "analyze_data_model" then backAnalyzeDataModel provider st t
  else (st, { success := false, error := some ("Ação desconhecida: " ++ action) })

/-- Model of `BackAgent.process_message`: append the message to memory,
build the role prompt and context, call the client at temperature 0.5 and
return the extractor output. -/
def backProcessMessage (provider : Provider) (st : AgentState) (message : Json) :
    AgentState × MsgResult :=
  let st := add_to_memory st message
  let msgContent := jGetD message "content" (.obj [])
  let prompt := create_agent_prompt "back-end"
    (pyStr (jGetD msgContent "description" (.str "Processar lógica de negócios")))
  let model_messages := create_context prompt (pyStr msgContent) []
  let response := (generate_response provider model_messages "gpt-3.5-turbo" (1/2) 1000).1
  let processed := extract_response response
  (st, { success := true, response := processed, agent := "BackAgent" })

/-! ## QA agent (`src/agents/qa_agent.py`)

The Python file carries the same merge artifact: after `_security_audit`
(line 248) a truncated second `_verify_result` body remains at lines
250-270.  The dispatched `_verify_result` is the complete first
definition; the fragment is modelled separately below because the claim
about `quality_score` cites it. -/

/-- Model of `QAAgent._verify_result` (first definition, lines 86-138, the
one `execute_task` dispatches to): build the verification prompt from the
back result, call the client at temperature 0.3, scan for a
brace-delimited region and `json.loads` it, with the same
success/degrade/failure shape as the other parse handlers (result key
`verification`; no `quality_score` key is produced). -/
def qaVerifyResult (provider : Provider) (st : AgentState) (t : PyTask) :
    AgentState × AgentResult :=
  let td := t.task_data
  let back_result := t.back_result.getD (.obj [])
  let prompt :=
    "Como agente de QA, verifique o resultado do processamento do back-end:\n\n" ++
    "Título: " ++ td.title.getD "Sem título" ++ "\n" ++
    "Resultado do Back-End: " ++ jsonDumps back_result ++ "\n\n" ++
    "Forneça sua verificação no seguinte formato JSON:\n" ++
    jsonDumps (.obj [
      ("testes_realizados", .arr [.str "lista de testes realizados"]),
      ("bugs_encontrados", .arr [.str "bugs ou problemas encontrados"]),
      ("melhorias_sugeridas", .arr [.str "melhorias sugeridas"]),
      ("status", .str "aprovado/reprovado"),
      ("summary", .str "resumo em uma frase")]) ++ "\n"
  let model_messages := create_context prompt "" []
  let response := (generate_response provider model_messages "gpt-3.5-turbo" (3/10) 1000).1
  let content := response.content
  let result : AgentResult :=
    match braceRegion content with
    | some json_str =>
      match jsonLoads json_str with
      | some verification =>
        { success := true, verification := some verification, task_id := t.task_id,
          summary := some (jGetD verification "summary" (.str "Verificação de QA concluída")) }
      | none =>
        { success := false,
          error := some ("Erro ao analisar resposta: " ++ jsonDecodeErrMsg),
          task_id := t.task_id }
    | none =>
      { success := true, verification := some noJsonFound, task_id := t.task_id,
        summary := some (jGetD noJsonFound "summary" (.str "Verificação de QA concluída")) }
  (st, result)

/-- Model of `QAAgent._generate_tests`: build the test-generation prompt
around the task code, call the client at temperature 0.3 with
`max_tokens=1500`, and return `success=True` with the raw content as the
generated tests. -/
def qaGenerateTests (provider : Provider) (st : AgentState) (t : PyTask) :
    AgentState × AgentResult :=
  let td := t.task_data
  let code := t.code.getD ""
  let prompt :=
    "Como agente de QA, gere testes automatizados para o seguinte código:\n\n" ++
    "Título: " ++ td.title.getD "Sem título" ++ "\n" ++
    "Descrição: " ++ td.description.getD "Sem descrição" ++ "\n\n" ++
    "Código:\n```\n" ++ code ++ "\n```\n\n" ++
    "Gere testes unitários e de integração usando pytest ou unittest.\n" ++
    "Cubra casos de sucesso e falha.\n"
  let model_messages := create_context prompt "" []
  let response := (generate_response provider model_messages "gpt-3.5-turbo" (3/10) 1500).1
  (st, { success := true, tests := some response.content,
         task_id := t.task_id, summary := some (.str "Testes automatizados gerados") })

/-- The audit format template of `_security_audit` (literal double braces
in the f-string, rendered to single braces). -/
def qaAuditTemplate : String :=
  "\x7b\n    \"vulnerabilidades\": [\n        \x7b\n            \"tipo\": \"tipo_de_vulnerabilidade\",\n" ++
  "            \"descricao\": \"descrição da vulnerabilidade\",\n            \"severidade\": \"alta/média/baixa\",\n" ++
  "            \"recomendacao\": \"recomendação para correção\"\n        \x7d\n    ],\n" ++
  "    \"boas_praticas\": [\"boas práticas identificadas\"],\n" ++
  "    \"melhorias_seguranca\": [\"melhorias de segurança sugeridas\"],\n" ++
  "    \"summary\": \"resumo em uma frase\"\n\x7d\n"

/-- Model of `QAAgent._security_audit`: build the audit prompt around the
task code, call the client at temperature 0.3 with `max_tokens=1500`, scan
for a brace-delimited region and `json.loads` it, with the same
success/degrade/failure shape as the other parse handlers (result key
`audit`). -/
def qaSecurityAudit (provider : Provider) (st : AgentState) (t : PyTask) :
    AgentState × AgentResult :=
  let td := t.task_data
  let code := t.code.getD ""
  let prompt :=
    "Como agente de QA especializado em segurança, realize uma auditoria de segurança no seguinte código:\n\n" ++
    "Título: " ++ td.title.getD "Sem título" ++ "\n" ++
    "Descrição: " ++ td.description.getD "Sem descrição" ++ "\n\n" ++
    "Código:\n```\n" ++ code ++ "\n```\n\n" ++
    "Forneça sua auditoria no seguinte formato JSON:\n" ++ qaAuditTemplate
  let model_messages := create_context prompt "" []
  let response := (generate_response provider model_messages "gpt-3.5-turbo" (3/10) 1500).1
  let content := response.content
  let result : AgentResult :=
    match braceRegion content with
    | some json_str =>
      match jsonLoads json_str with
      | some audit =>
        { success := true, audit := some audit, task_id := t.task_id,
          summary := some (jGetD audit "summary" (.str "Auditoria de segurança concluída")) }
      | none =>
        { success := false,
          error := some ("Erro ao analisar resposta: " ++ jsonDecodeErrMsg),
          task_id := t.task_id }
    | none =>
      { success := true, audit := some noJsonFound, task_id := t.task_id,
        summary := some (jGetD noJsonFound "summary" (.str "Auditoria de segurança concluída")) }
  (st, result)

/-- Model of `QAAgent.execute_task`: dispatch on `task.get("action",
"")`; an unrecognised action returns the named failure dict. -/
def qaExecuteTask (provider : Provider) (st : AgentState) (t : PyTask) :
    AgentState × AgentResult :=
  let action := t.action.getD ""
  if action = "verify_result" then qaVerifyResult provider st t
  else if action = "generate_tests" then qaGenerateTests provider st t
  else if action = "security_audit" then qaSecurityAudit provider st t
  else (st, { success := false, error := some ("Ação desconhecida: " ++ action) })

/-- Model of `QAAgent.process_message`: append the message to memory,
build the role prompt and context, call the client at temperature 0.3 and
return the extractor output. -/
def qaProcessMessage (provider : Provider) (st : AgentState) (message : Json) :
    AgentState × MsgResult :=
  let st := add_to_memory st message
  let msgContent := jGetD message "content" (.obj [])
  let prompt := create_agent_prompt "qa"
    (pyStr (jGetD msgContent "description" (.str "Verificar qualidade e testar")))
  let model_messages := create_context prompt (pyStr msgContent) []
  let response := (generate_response provider model_messages "gpt-3.5-turbo" (3/10) 1000).1
  let processed := extract_response response
  (st, { success := true, response := processed, agent := "QAAgent" })

/-- The hardcoded verification payload of the trailing `_verify_result`
fragment, substituted when no structured data is extracted. -/
def qaFallbackVerification : Json :=
  .obj [
    ("requirements_met", .arr [.str "Funcionalidade básica implementada",
                               .str "Estrutura de dados adequada"]),
    ("issues", .arr [.str "Possível problema de validação de entrada"]),
    ("improvements", .arr [.str "Adicionar mais validações",
                           .str "Melhorar documentação da API"]),
    ("quality_score", .int 7),
    ("summary", .str "Implementação satisfatória com algumas melhorias sugeridas")]

/-- Model of the trailing `_verify_result` fragment of `qa_agent.py`
(lines 250-270), the variant the quality-score claim cites: run the
extractor on the generation output; take the structured data when present
and the `qaFallbackVerification` payload otherwise; report
`verification_result.get("quality_score", 5)` without any range check.
The prompt prefix was lost to the merge artifact, so the prompt here is
the visible tail only; it flows solely into the opaque provider. -/
def qaVerifyResultV2 (provider : Provider) (st : AgentState) (t : PyTask) :
    AgentState × AgentResult :=
  let back_result := t.back_result.getD (.obj [])
  let prompt :=
    "Resultado do processamento:\n" ++
    pyStr (jGetD back_result "summary" (.str "Sem resumo de processamento")) ++ "\n\n" ++
    "Responda em JSON com: requirements_met, issues, improvements, quality_score, summary\n"
  let model_messages : List Message :=
    [⟨"system", create_agent_prompt "qa" "Verificação de qualidade"⟩,
     ⟨"user", prompt⟩]
  let response := (generate_response provider model_messages "gpt-3.5-turbo" (3/10) 1000).1
  let processed := extract_response response
  let verification_result :=
    if processed.has_structured_data then processed.structured_data.getD (.obj [])
    else qaFallbackVerification
  (st, { success := true, verification_result := some verification_result,
         quality_score := some (jGetD verification_result "quality_score" (.int 5)),
         summary := some (jGetD verification_result "summary" (.str "Verificação concluída")) })

/-! ## Database collaborator (`src/data/database.py`) -/

/-- Observable database state: a fresh-id counter, the inserted task rows
(id, title, description, user id, project id), the append-only
`agent_interactions` rows (task id, agent name, message) and the
append-only history of status writes (task id, status, optional generated
output) — `create_task` inserts with status `processing` and
`update_task_status` appends later writes. -/
structure World where
  nextId : Nat := 1
  taskRows : List (Nat × String × String × Int × Option Int) := []
  interactions : List (Nat × String × String) := []
  statusEvents : List (Nat × String × Option String) := []

/-- Model of `create_task`: insert a row with status `processing` and
return the generated id. -/
def create_task (w : World) (title description : String) (user_id : Int)
    (project_id : Option Int) : Nat × World :=
  (w.nextId,
   { w with
     nextId := w.nextId + 1,
     taskRows := w.taskRows ++ [(w.nextId, title, description, user_id, project_id)],
     statusEvents := w.statusEvents ++ [(w.nextId, "processing", none)] })

/-- Model of `log_interaction`: append a row to `agent_interactions`. -/
def log_interaction (w : World) (task_id : Nat) (agent_name message : String) :
    World :=
  { w with interactions := w.interactions ++ [(task_id, agent_name, message)] }

/-- Model of `update_task_status`: record a status write (with the
optional generated output). -/
def update_task_status (w : World) (task_id : Nat) (status : String)
    (output : Option String) : World :=
  { w with statusEvents := w.statusEvents ++ [(task_id, status, output)] }

/-- The interaction-log rows of one task, in creation order — the
canonical audit sequence. -/
def interactionsFor (w : World) (task_id : Nat) : List (String × String) :=
  (w.interactions.filter (fun r => r.1 = task_id)).map (fun r => r.2)

/-- The latest status written for a task, `none` when the task does not
exist. -/
def currentStatus (w : World) (task_id : Nat) : Option String :=
  (w.statusEvents.filter (fun r => r.1 = task_id)).getLast?.map (fun r => r.2.1)

/-! ## Persistence-backed orchestrator (`src/orchestrator/orchestrator.py`) -/

/-- A Python exception value as the orchestrator's `except` clause sees
it. -/
inductive PyErr where
  | attributeError (msg : String)
  | valueError (msg : String)

/-- Model of `str(exc)`. -/
def PyErr.toStr : PyErr → String
  | .attributeError m => m
  | .valueError m => m

/-- The message of the `AttributeError` raised when `_execute_agent_task`
reads the never-assigned `self.agents` attribute (Python renders the class
and attribute names quoted; the quotes are immaterial and omitted
here). -/
def agentsAttrErrMsg : String :=
  "Orchestrator object has no attribute agents"

/-- A registered agent as `_execute_agent_task` would use it: the one-dict
`execute_task` entry point, with the provider and memory fixed at
construction (no repository agent method touches memory, cf. the frame
theorem below). -/
def AgentFun : Type :=
  PyTask → AgentResult

/-- The persistence-backed `Orchestrator` object.  Its `__init__` assigns
`front_agent`, `back_agent`, `qa_agent` (plus `db` and `logger`, which are
modelled by the explicit `World`), and never assigns the `agents`
attribute that `_execute_agent_task` reads; the absent attribute is
modelled by `Option`, with attribute access on `none` raising
`AttributeError`. -/
structure Orchestrator1 where
  front_agent : AgentFun
  back_agent : AgentFun
  qa_agent : AgentFun
  agents : Option (List (String × AgentFun))

/-- Model of `Orchestrator.__init__` of the persistence-backed
orchestrator: the three agent fields are stored; `self.agents` is never
created. -/
def Orchestrator1.init (f b q : AgentFun) : Orchestrator1 :=
  ⟨f, b, q, none⟩

/-- Case-insensitive containment `a.lower() in b.lower()` of Python. -/
def strInCI (a b : String) : Bool :=
  (pyFind (b.map Char.toLower) (a.map Char.toLower) 0).isSome

/-- Model of `Orchestrator._execute_agent_task`: read `self.agents`
(raising `AttributeError` when the attribute was never assigned), try the
exact key, then the first registration matching by case-insensitive
substring in either direction, and otherwise raise
`ValueError("Agente não encontrado: ...")`. -/
def Orchestrator1.execAgentTask (o : Orchestrator1) (agent_name_key : String)
    (t : PyTask) : Except PyErr AgentResult :=
  match o.agents with
  | none => .error (.attributeError agentsAttrErrMsg)
  | some ags =>
    match ags.find? (fun p => p.1 = agent_name_key) with
    | some p => .ok (p.2 t)
    | none =>
      match ags.find? (fun p =>
          strInCI agent_name_key p.1 || strInCI p.1 agent_name_key) with
      | some p => .ok (p.2 t)
      | none => .error (.valueError ("Agente não encontrado: " ++ agent_name_key))

/-- The `except Exception` handler of the persistence-backed
`process_task`: log a `system` interaction with the error, persist status
`failed`, and return the `{success: False, error}` dict. -/
def orch1ExceptPath (w : World) (task_id : Nat) (exc : PyErr) :
    AgentResult × World :=
  let w := log_interaction w task_id "system" ("Erro: " ++ exc.toStr)
  let w := update_task_status w task_id "failed" none
  ({ success := false, error := some exc.toStr }, w)

/-- Model of the persistence-backed `Orchestrator.process_task`: create a
task row, then run the four stages front → back → qa → front, logging one
interaction after each stage and persisting `completed` with the
serialised final result at the end; any raised exception falls to
`orch1ExceptPath`.  No `success` flag of any stage result is ever
inspected. -/
def processTask1 (o : Orchestrator1) (td : TaskData) (w : World) :
    AgentResult × World :=
  let (task_id, w) := create_task w (td.title.getD "Sem título")
    (td.description.getD "") (td.user_id.getD 0) td.project_id
  let tidJ : Json := .int task_id
  match o.execAgentTask "front_agent"
      { action := some "analyze_task", task_id := some tidJ, task_data := td } with
  | .error exc => orch1ExceptPath w task_id exc
  | .ok front_result =>
    let w := log_interaction w task_id "front_agent"
      ("Análise inicial: " ++ pyStr (front_result.summary.getD (.str "N/A")))
    match o.execAgentTask "back_agent"
        { action := some "process_task", task_id := some tidJ,
          front_analysis := some (resultToJson front_result), task_data := td } with
    | .error exc => orch1ExceptPath w task_id exc
    | .ok back_result =>
      let w := log_interaction w task_id "back_agent"
        ("Processamento: " ++ pyStr (back_result.summary.getD (.str "N/A")))
      match o.execAgentTask "qa_agent"
          { action := some "verify_result", task_id := some tidJ,
            back_result := some (resultToJson back_result), task_data := td } with
      | .error exc => orch1ExceptPath w task_id exc
      | .ok qa_result =>
        let w := log_interaction w task_id "qa_agent"
          ("Verificação: " ++ pyStr (qa_result.summary.getD (.str "N/A")))
        match o.execAgentTask "front_agent"
            { action := some "prepare_response", task_id := some tidJ,
              qa_result := some (resultToJson qa_result), task_data := td } with
        | .error exc => orch1ExceptPath w task_id exc
        | .ok final_result =>
          let w := log_interaction w task_id "front_agent"
            ("Resposta final: " ++ pyStr (final_result.summary.getD (.str "N/A")))
          let w := update_task_status w task_id "completed"
            (some (pyStr (resultToJson final_result)))
          (final_result, w)

/-! ## Agents-module orchestrator (`src/agents/orchestrator.py`) -/

/-- A stage agent as this orchestrator calls it: the two-argument
`execute_task(task, action)` entry point (the interface the call sites
assume under Python duck typing); `Except.error` models a call that
raises, carrying `str(e)`. -/
def AgentFun2 : Type :=
  PyTask → String → Except String AgentResult

/-- The agents-module `Orchestrator` object (no persistence, no
interaction log). -/
structure Orchestrator2 where
  front_agent : AgentFun2
  back_agent : AgentFun2
  qa_agent : AgentFun2

/-- The dict returned by the agents-module `process_task`; each `Option`
field stands for a possibly-absent key (in particular, the stage-failure
returns carry no `status` key at all). -/
structure OrchResult2 where
  success : Bool
  error : Option String := none
  task_id : String
  result : Option Json := none
  status : Option String := none

/-- The four stage invocations of the agents-module `process_task`, in
pipeline order. -/
inductive StageCall where
  | frontAnalyze
  | backProcess
  | qaVerify
  | frontPrepare
deriving DecidableEq

/-- One run of the agents-module `process_task`: the returned dict, the
`execute_task` invocations actually made (in order), and the successive
values assigned to `task["status"]`. -/
structure Run2 where
  result : OrchResult2
  calls : List StageCall
  statusHist : List String

/-- The task dict as the agents-module `process_task` creates it. -/
def task0 (task_id : String) (td : TaskData) : PyTask :=
  { task_id := some (.str task_id), task_data := td, status := some "iniciada" }

/-- The task dict after the front analysis stage succeeded
(`task["front_analysis"] = front_result.get("analysis", {})`). -/
def task1 (task_id : String) (td : TaskData) (front_result : AgentResult) : PyTask :=
  { task0 task_id td with
    front_analysis := some (front_result.analysis.getD (.obj [])),
    status := some "analisada_front" }

/-- The task dict after the back processing stage succeeded
(`task["back_result"] = back_result`). -/
def task2 (task_id : String) (td : TaskData) (front_result back_result : AgentResult) :
    PyTask :=
  { task1 task_id td front_result with
    back_result := some (resultToJson back_result),
    status := some "processada_back" }

/-- The task dict after the QA verification stage succeeded
(`task["qa_result"] = qa_result`). -/
def task3 (task_id : String) (td : TaskData)
    (front_result back_result qa_result : AgentResult) : PyTask :=
  { task2 task_id td front_result back_result with
    qa_result := some (resultToJson qa_result),
    status := some "verificada_qa" }

/-- Model of the agents-module `Orchestrator.process_task` (`task_id`
stands for the generated `uuid4` string): run front `analyze_task`, back
`process_task`, qa `verify_result`, front `prepare_response`; after each
stage, return the failure dict as soon as `result.get("success", False)`
is falsy, otherwise merge the stage output into the task dict and advance
the status; a raised exception returns the `status: "erro"` dict.  The
extra `calls` and `statusHist` components record the observable shape of
the run. -/
def processTask2 (o : Orchestrator2) (task_id : String) (td : TaskData) : Run2 :=
  match o.front_agent (task0 task_id td) "analyze_task" with
  | .error e =>
    ⟨{ success := false, error := some ("Erro no processamento: " ++ e),
       task_id := task_id, status := some "erro" },
     [.frontAnalyze], ["iniciada"]⟩
  | .ok front_result =>
    if !front_result.success then
      ⟨{ success := false,
         error := some (front_result.error.getD "Erro na análise de front-end"),
         task_id := task_id },
       [.frontAnalyze], ["iniciada"]⟩
    else
      match o.back_agent (task1 task_id td front_result) "process_task" with
      | .error e =>
        ⟨{ success := false, error := some ("Erro no processamento: " ++ e),
           task_id := task_id, status := some "erro" },
         [.frontAnalyze, .backProcess], ["iniciada", "analisada_front"]⟩
      | .ok back_result =>
        if !back_result.success then
          ⟨{ success := false,
             error := some (back_result.error.getD "Erro no processamento de back-end"),
             task_id := task_id },
           [.frontAnalyze, .backProcess], ["iniciada", "analisada_front"]⟩
        else
          match o.qa_agent (task2 task_id td front_result back_result) "verify_result" with
          | .error e =>
            ⟨{ success := false, error := some ("Erro no processamento: " ++ e),
               task_id := task_id, status := some "erro" },
             [.frontAnalyze, .backProcess, .qaVerify],
             ["iniciada", "analisada_front", "processada_back"]⟩
          | .ok qa_result =>
            if !qa_result.success then
              ⟨{ success := false,
                 error := some (qa_result.error.getD "Erro na verificação de QA"),
                 task_id := task_id },
               [.frontAnalyze, .backProcess, .qaVerify],
               ["iniciada", "analisada_front", "processada_back"]⟩
            else
              match o.front_agent (task3 task_id td front_result back_result qa_result)
                  "prepare_response" with
              | .error e =>
                ⟨{ success := false, error := some ("Erro no processamento: " ++ e),
                   task_id := task_id, status := some "erro" },
                 [.frontAnalyze, .backProcess, .qaVerify, .frontPrepare],
                 ["iniciada", "analisada_front", "processada_back", "verificada_qa"]⟩
              | .ok final_result =>
                if !final_result.success then
                  ⟨{ success := false,
                     error := some (final_result.error.getD "Erro na preparação da resposta final"),
                     task_id := task_id },
                   [.frontAnalyze, .backProcess, .qaVerify, .frontPrepare],
                   ["iniciada", "analisada_front", "processada_back", "verificada_qa"]⟩
                else
                  ⟨{ success := true, task_id := task_id,
                     result := some (final_result.response.getD (.obj [])),
                     status := some "concluída" },
                   [.frontAnalyze, .backProcess, .qaVerify, .frontPrepare],
                   ["iniciada", "analisada_front", "processada_back",
                    "verificada_qa", "concluída"]⟩

/-! ## Auxiliary predicates for the theorems -/

/-- The action tags `FrontAgent.execute_task` recognises. -/
def frontActions : List String :=
  ["analyze_task", "prepare_response", "generate_ui_code"]

/-- The action tags `BackAgent.execute_task` recognises. -/
def backActions : List String :=
  ["process_task", "generate_api", "analyze_data_model"]

/-- The action tags `QAAgent.execute_task` recognises. -/
def qaActions : List String :=
  ["verify_result", "generate_tests", "security_audit"]

/-- Is a reported quality score an integer in the range [0, 10]? -/
def scoreInRange : Json → Bool
  | .int n => decide (0 ≤ n) && decide (n ≤ 10)
  | _ => false

/-! # Theorems -/

/-- C5: a generation response whose content holds a valid fenced JSON
block with the single field `a = 1` extracts to structured data equal to
that object with `has_structured_data = true`; the same content with the
closing fence removed extracts to `has_structured_data = false` with no
structured data. -/
theorem mcp_extract_roundtrip :
    extract_response { content := "```json\n\x7b\"a\":1\x7d\n```", role := "assistant" } =
      { content := "```json\n\x7b\"a\":1\x7d\n```",
        structured_data := some (.obj [("a", .int 1)]),
        has_structured_data := true }
    ∧ extract_response { content := "```json\n\x7b\"a\":1\x7d\n", role := "assistant" } =
      { content := "```json\n\x7b\"a\":1\x7d\n",
        structured_data := none,
        has_structured_data := false } :=
  ⟨rfl, rfl⟩

/-- C6: `extract_response` is a total function of the response; whenever
the fenced-block scan fails (no opener, no closing fence) or the enclosed
text does not parse, it returns exactly the plain shape carrying only the
original text with `has_structured_data = false`; and every output is
either that plain shape or the structured shape carrying the original
text — so no input reaches any other outcome (no exception escapes the
boundary). -/
theorem extract_response_total_and_degrading :
    ∀ (resp : GenResponse),
      (fencedBlock resp.content = none →
        extract_response resp =
          { content := resp.content, has_structured_data := false })
      ∧ (∀ s, fencedBlock resp.content = some s → jsonLoads s = none →
        extract_response resp =
          { content := resp.content, has_structured_data := false })
      ∧ (extract_response resp =
          { content := resp.content, has_structured_data := false }
        ∨ ∃ j, extract_response resp =
          { content := resp.content, structured_data := some j,
            has_structured_data := true }) := by
  intro resp
  unfold extract_response fencedBlock
  cases h1 : pyFind resp.content "```json" 0 with
  | none => simp [h1]
  | some js =>
    cases h2 : pyFind resp.content "```" (js + 7) with
    | none => simp [h1, h2]
    | some je =>
      cases h3 : jsonLoads (pyStrip (pySlice resp.content (js + 7) je)) with
      | none => simp [h1, h2, h3]
      | some j => simp [h1, h2, h3]

/-- C6 witness: the totality theorem applied to a concrete marker-free
response. -/
theorem extract_response_total_witness :
    extract_response { content := "ola", role := "assistant" } =
      { content := "ola", has_structured_data := false } :=
  (extract_response_total_and_degrading
    { content := "ola", role := "assistant" }).1 rfl

/-- C7: for each of the three agents, a task whose action tag is not in
that agent's dispatch table makes `execute_task` return the failure dict
`success = false` with the error message carrying the unknown action name
(and the memory state untouched) — no other outcome is possible. -/
theorem unknown_action_named_failure :
    ∀ (provider : Provider) (st : AgentState) (t : PyTask),
      (t.action.getD "" ∉ frontActions →
        frontExecuteTask provider st t =
          (st, { success := false,
                 error := some ("Ação desconhecida: " ++ t.action.getD "") }))
      ∧ (t.action.getD "" ∉ backActions →
        backExecuteTask provider st t =
          (st, { success := false,
                 error := some ("Ação desconhecida: " ++ t.action.getD "") }))
      ∧ (t.action.getD "" ∉ qaActions →
        qaExecuteTask provider st t =
          (st, { success := false,
                 error := some ("Ação desconhecida: " ++ t.action.getD "") })) := by
  intro provider st t
  refine ⟨fun h => ?_, fun h => ?_, fun h => ?_⟩
  · simp only [frontActions, List.mem_cons, List.not_mem_nil, or_false,
      not_or] at h
    obtain ⟨h1, h2, h3⟩ := h
    simp [frontExecuteTask, h1, h2, h3]
  · simp only [backActions, List.mem_cons, List.not_mem_nil, or_false,
      not_or] at h
    obtain ⟨h1, h2, h3⟩ := h
    simp [backExecuteTask, h1, h2, h3]
  · simp only [qaActions, List.mem_cons, List.not_mem_nil, or_false,
      not_or] at h
    obtain ⟨h1, h2, h3⟩ := h
    simp [qaExecuteTask, h1, h2, h3]

/-- C7 witness: the unknown-action theorem applied to the concrete action
`deploy` on the front agent. -/
theorem unknown_action_named_failure_witness :
    frontExecuteTask (fun _ => .error "down") {} { action := some "deploy" } =
      ({}, { success := false,
             error := some ("Ação desconhecida: " ++ "deploy") }) :=
  (unknown_action_named_failure (fun _ => .error "down") {}
    { action := some "deploy" }).1 (by decide)

/-- C10: for each of the three agents and every provider, task and
message, `execute_task` leaves the agent state (hence the memory list)
unchanged, `process_message` changes the memory exactly by appending the
incoming message, and `clear_memory` empties it. -/
theorem execute_task_preserves_memory :
    ∀ (provider : Provider) (st : AgentState) (t : PyTask) (message : Json),
      (frontExecuteTask provider st t).1 = st
      ∧ (backExecuteTask provider st t).1 = st
      ∧ (qaExecuteTask provider st t).1 = st
      ∧ (frontProcessMessage provider st message).1.memory = st.memory ++ [message]
      ∧ (backProcessMessage provider st message).1.memory = st.memory ++ [message]
      ∧ (qaProcessMessage provider st message).1.memory = st.memory ++ [message]
      ∧ (clear_memory st).memory = [] := by
  intro provider st t message
  refine ⟨?_, ?_, ?_, rfl, rfl, rfl, rfl⟩
  · simp only [frontExecuteTask]
    split
    · rfl
    · split
      · rfl
      · split
        · rfl
        · rfl
  · simp only [backExecuteTask]
    split
    · rfl
    · split
      · rfl
      · split
        · rfl
        · rfl
  · simp only [qaExecuteTask]
    split
    · rfl
    · split
      · rfl
      · split
        · rfl
        · rfl

/-- C3 counterexample: when the provider raises (here `timeout`), the
front agent's `prepare_response` and the back agent's `generate_api`
return `success = true` — not the `success = false` the claim states. -/
theorem transport_error_success_true_cex :
    ((frontExecuteTask (fun _ => .error "timeout") {}
        { action := some "prepare_response" }).2.success = true)
    ∧ ((backExecuteTask (fun _ => .error "timeout") {}
        { action := some "generate_api" }).2.success = true) :=
  ⟨rfl, rfl⟩

/-- C3 amended: a transport-level provider failure is recovered inside
the Generation Client as the error-flagged response whose content is
`Erro ao gerar resposta: ` followed by the triggering message; the
`prepare_response` and `generate_api` handlers never inspect that flag
and return `success = true`, with the error message embedded as the
`response` text and generated `code` respectively. -/
theorem transport_error_passthrough :
    ∀ (e : String) (st : AgentState) (t : PyTask),
      (t.action = some "prepare_response" →
        (frontExecuteTask (fun _ => .error e) st t).2 =
          { success := true,
            response := some (.str ("Erro ao gerar resposta: " ++ e)),
            task_id := t.task_id,
            summary := some (.str "Resposta final preparada") })
      ∧ (t.action = some "generate_api" →
        (backExecuteTask (fun _ => .error e) st t).2 =
          { success := true,
            code := some ("Erro ao gerar resposta: " ++ e),
            task_id := t.task_id,
            summary := some (.str "Código de API gerado") }) := by
  intro e st t
  constructor
  · intro h
    simp [frontExecuteTask, h, frontPrepareResponse, generate_response]
  · intro h
    simp [backExecuteTask, h, backGenerateApi, generate_response]

/-- C3 witness: the passthrough theorem applied to the concrete error
`down` on the front agent's `prepare_response` action. -/
theorem transport_error_passthrough_witness :
    (frontExecuteTask (fun _ => .error "down") {}
        { action := some "prepare_response" }).2 =
      { success := true,
        response := some (.str ("Erro ao gerar resposta: " ++ "down")),
        task_id := none,
        summary := some (.str "Resposta final preparada") } :=
  (transport_error_passthrough "down" {} { action := some "prepare_response" }).1 rfl

/-- C4 counterexample: calling `generate_response` with temperature 3 —
outside [0, 2] — is not rejected: with a succeeding provider the result is
the ordinary success dict (no error outcome), and the provider is invoked
with temperature exactly 3 (not clamped). -/
theorem temperature_not_validated_cex :
    ((generate_response (fun _ => .ok ("ok", ⟨1, 1, 2⟩)) []
        "gpt-3.5-turbo" 3 1000).1.error = false)
    ∧ ((generate_response (fun _ => .ok ("ok", ⟨1, 1, 2⟩)) []
        "gpt-3.5-turbo" 3 1000).2.temperature = 3)
    ∧ ((2 : Rat) < 3) :=
  ⟨rfl, rfl, by norm_num⟩

/-- C4 amended: `generate_response` applies no temperature validation at
all: every call — whatever the temperature — forwards all four arguments
unchanged to the provider (so an out-of-range value is never clamped),
returns the plain success dict whenever the provider succeeds (so the
call is never rejected), and returns the recovered error-flagged dict
exactly when the provider itself raises. -/
theorem generate_response_no_temperature_check :
    ∀ (provider : Provider) (messages : List Message) (model : String)
      (temperature : Rat) (max_tokens : Nat),
      ((generate_response provider messages model temperature max_tokens).2 =
        { messages := messages, model := model, temperature := temperature,
          max_tokens := max_tokens })
      ∧ (∀ c u,
          provider { messages := messages, model := model,
                     temperature := temperature, max_tokens := max_tokens } = .ok (c, u) →
          (generate_response provider messages model temperature max_tokens).1 =
            { content := c, role := "assistant", model := some model,
              usage := some u })
      ∧ (∀ e,
          provider { messages := messages, model := model,
                     temperature := temperature, max_tokens := max_tokens } = .error e →
          (generate_response provider messages model temperature max_tokens).1 =
            { content := "Erro ao gerar resposta: " ++ e, role := "system",
              error := true }) := by
  intro provider messages model temperature max_tokens
  refine ⟨?_, fun c u h => ?_, fun e h => ?_⟩
  · simp only [generate_response]
    cases h : provider ⟨messages, model, temperature, max_tokens⟩ with
    | ok p => rfl
    | error e => rfl
  · simp only [generate_response]
    rw [h]
  · simp only [generate_response]
    rw [h]

/-- C4 witness: the no-validation theorem applied at the out-of-range
temperature 5 with a succeeding provider. -/
theorem generate_response_no_temperature_check_witness :
    (generate_response (fun _ => .ok ("hi", ⟨0, 0, 0⟩)) [] "m" 5 10).1 =
      { content := "hi", role := "assistant", model := some "m",
        usage := some ⟨0, 0, 0⟩ } :=
  (generate_response_no_temperature_check
    (fun _ => .ok ("hi", ⟨0, 0, 0⟩)) [] "m" 5 10).2.1 "hi" ⟨0, 0, 0⟩ rfl

/-- The two quality-score fields of the verify-result fragment are linked:
the result always carries a `verification_result`, and the reported
`quality_score` is exactly the `.get("quality_score", 5)` of it. -/
theorem qaVerifyV2_fields (provider : Provider) (st : AgentState) (t : PyTask) :
    ∃ vr, (qaVerifyResultV2 provider st t).2.verification_result = some vr
      ∧ (qaVerifyResultV2 provider st t).2.quality_score =
        some (jGetD vr "quality_score" (.int 5)) :=
  ⟨_, rfl, rfl⟩

/-- C9 counterexample: a provider emitting the fenced block
`\x7b"quality_score": 99\x7d` makes the verify-result fragment report
`quality_score = 99`, which is not in [0, 10] — the model-supplied score
is passed through unvalidated. -/
theorem qa_quality_score_out_of_range_cex :
    ((qaVerifyResultV2
        (fun _ => .ok ("```json\n\x7b\"quality_score\":99\x7d\n```", ⟨1, 1, 2⟩))
        {} {}).2.quality_score = some (.int 99))
    ∧ scoreInRange (.int 99) = false :=
  ⟨rfl, rfl⟩

/-- C9 amended: the quality scores originating inside the repository are
in range — on the fallback path (no structured data) the reported score is
the hardcoded 7, and when the model's structured object lacks a
`quality_score` key the reported score is the default 5, both in [0, 10];
but a `quality_score` taken from the model's structured data is reported
unvalidated and need not lie in [0, 10]. -/
theorem qa_quality_score_default_paths :
    ∀ (provider : Provider) (st : AgentState) (t : PyTask),
      ((qaVerifyResultV2 provider st t).2.verification_result =
          some qaFallbackVerification →
        (qaVerifyResultV2 provider st t).2.quality_score = some (.int 7)
        ∧ scoreInRange (.int 7) = true)
      ∧ (∀ sd, (qaVerifyResultV2 provider st t).2.verification_result = some sd →
          jGet sd "quality_score" = none →
        (qaVerifyResultV2 provider st t).2.quality_score = some (.int 5)
        ∧ scoreInRange (.int 5) = true) := by
  intro provider st t
  obtain ⟨vr, hv, hq⟩ := qaVerifyV2_fields provider st t
  constructor
  · intro h
    rw [hv] at h
    obtain rfl := Option.some.inj h
    refine ⟨?_, rfl⟩
    rw [hq]
    rfl
  · intro sd h hnone
    rw [hv] at h
    obtain rfl := Option.some.inj h
    rw [hq]
    refine ⟨?_, rfl⟩
    simp [jGetD, hnone]

/-- C9 witness: the default-path theorem applied to a provider whose call
raises, so that no structured data is extracted and the hardcoded
fallback payload (score 7) is reported. -/
theorem qa_quality_score_default_paths_witness :
    (qaVerifyResultV2 (fun _ => .error "down") {} {}).2.quality_score =
        some (.int 7)
    ∧ scoreInRange (.int 7) = true :=
  (qa_quality_score_default_paths (fun _ => .error "down") {} {}).1 rfl

/-- C8: for every choice of constructed agents, agent name and task, the
agent lookup of the persistence-backed orchestrator as `__init__` builds
it raises `AttributeError` (the `self.agents` registry is never assigned)
— it never reaches the exact-name match, the case-insensitive substring
fallback, or the explicit `Agente não encontrado` `ValueError` of its own
final branch. -/
theorem orch1_agent_lookup_attribute_error :
    ∀ (f b q : AgentFun) (name : String) (t : PyTask),
      (Orchestrator1.init f b q).execAgentTask name t =
        .error (.attributeError agentsAttrErrMsg) :=
  fun _ _ _ _ _ => rfl

/-- C2: every run of the persistence-backed `process_task` — whatever the
agents, the task data and the prior database state — hits the
`AttributeError` on the never-assigned `self.agents` at the first stage
call, and therefore returns the failure dict, logs exactly one `system`
interaction for the fresh task and persists `processing` (from creation)
followed by `failed`; in particular no run can produce four stage
interactions or a `completed` status. -/
theorem orch1_every_run_fails :
    ∀ (f b q : AgentFun) (td : TaskData) (w : World),
      processTask1 (Orchestrator1.init f b q) td w =
        ({ success := false, error := some agentsAttrErrMsg },
         { nextId := w.nextId + 1,
           taskRows := w.taskRows ++
             [(w.nextId, td.title.getD "Sem título", td.description.getD "",
               td.user_id.getD 0, td.project_id)],
           interactions := w.interactions ++
             [(w.nextId, "system", "Erro: " ++ agentsAttrErrMsg)],
           statusEvents := w.statusEvents ++
             [(w.nextId, "processing", none), (w.nextId, "failed", none)] }) := by
  intro f b q td w
  simp [processTask1, Orchestrator1.init, Orchestrator1.execAgentTask,
    create_task, orch1ExceptPath, log_interaction, update_task_status,
    PyErr.toStr]

/-- C1 amended: in the agents-module orchestrator, the first stage whose
result has `success = false` halts the run — the returned dict is the
failure carrying that stage's error (or the stage default when the error
key is absent), no later stage's `execute_task` is invoked, and the
returned dict carries no `status` key while the task status history stops
at the preceding stage's value, so no `failed` status is recorded
anywhere. -/
theorem orch2_first_failure_halts :
    ∀ (o : Orchestrator2) (tid : String) (td : TaskData),
      (∀ fr, o.front_agent (task0 tid td) "analyze_task" = .ok fr →
        fr.success = false →
        processTask2 o tid td =
          ⟨{ success := false,
             error := some (fr.error.getD "Erro na análise de front-end"),
             task_id := tid },
           [.frontAnalyze], ["iniciada"]⟩)
      ∧ (∀ fr br, o.front_agent (task0 tid td) "analyze_task" = .ok fr →
          fr.success = true →
          o.back_agent (task1 tid td fr) "process_task" = .ok br →
          br.success = false →
          processTask2 o tid td =
            ⟨{ success := false,
               error := some (br.error.getD "Erro no processamento de back-end"),
               task_id := tid },
             [.frontAnalyze, .backProcess], ["iniciada", "analisada_front"]⟩)
      ∧ (∀ fr br qr, o.front_agent (task0 tid td) "analyze_task" = .ok fr →
          fr.success = true →
          o.back_agent (task1 tid td fr) "process_task" = .ok br →
          br.success = true →
          o.qa_agent (task2 tid td fr br) "verify_result" = .ok qr →
          qr.success = false →
          processTask2 o tid td =
            ⟨{ success := false,
               error := some (qr.error.getD "Erro na verificação de QA"),
               task_id := tid },
             [.frontAnalyze, .backProcess, .qaVerify],
             ["iniciada", "analisada_front", "processada_back"]⟩)
      ∧ (∀ fr br qr fin, o.front_agent (task0 tid td) "analyze_task" = .ok fr →
          fr.success = true →
          o.back_agent (task1 tid td fr) "process_task" = .ok br →
          br.success = true →
          o.qa_agent (task2 tid td fr br) "verify_result" = .ok qr →
          qr.success = true →
          o.front_agent (task3 tid td fr br qr) "prepare_response" = .ok fin →
          fin.success = false →
          processTask2 o tid td =
            ⟨{ success := false,
               error := some (fin.error.getD "Erro na preparação da resposta final"),
               task_id := tid },
             [.frontAnalyze, .backProcess, .qaVerify, .frontPrepare],
             ["iniciada", "analisada_front", "processada_back",
              "verificada_qa"]⟩) := by
  intro o tid td
  refine ⟨?_, ?_, ?_, ?_⟩
  · intro fr h1 hs1
    simp [processTask2, h1, hs1]
  · intro fr br h1 hs1 h2 hs2
    simp [processTask2, h1, hs1, h2, hs2]
  · intro fr br qr h1 hs1 h2 hs2 h3 hs3
    simp [processTask2, h1, hs1, h2, hs2, h3, hs3]
  · intro fr br qr fin h1 hs1 h2 hs2 h3 hs3 h4 hs4
    simp [processTask2, h1, hs1, h2, hs2, h3, hs3, h4, hs4]

/-- A pipeline whose front analysis succeeds and whose back processing
fails with the error `timeout` (echoing the spec's failure scenario). -/
def cexOrch2 : Orchestrator2 where
  front_agent := fun _ action =>
    if action = "analyze_task" then
      .ok { success := true, analysis := some (.obj []),
            summary := some (.str "ok") }
    else
      .ok { success := true, response := some (.str "done") }
  back_agent := fun _ _ => .ok { success := false, error := some "timeout" }
  qa_agent := fun _ _ => .ok { success := true }

/-- C1 counterexample: in the concrete run where the back stage returns
`success = false, error = "timeout"`, the agents-module orchestrator does
return the failure and stops after two stage calls, but no `failed`
status exists anywhere: the returned dict has no `status` key and the
status history ends at `analisada_front` — refuting the claim that the
task status becomes `failed` at the first failing stage. -/
theorem orch2_stage_failure_no_failed_status :
    ((processTask2 cexOrch2 "T1" {}).result.success = false)
    ∧ ((processTask2 cexOrch2 "T1" {}).result.error = some "timeout")
    ∧ ((processTask2 cexOrch2 "T1" {}).result.status = none)
    ∧ ((processTask2 cexOrch2 "T1" {}).calls = [.frontAnalyze, .backProcess])
    ∧ ((processTask2 cexOrch2 "T1" {}).statusHist =
        ["iniciada", "analisada_front"]) :=
  ⟨rfl, rfl, rfl, rfl, rfl⟩

/-- C1 witness: the halting theorem applied to the concrete back-stage
`timeout` failure. -/
theorem orch2_first_failure_halts_witness :
    processTask2 cexOrch2 "T1" {} =
      ⟨{ success := false, error := some "timeout", task_id := "T1" },
       [.frontAnalyze, .backProcess], ["iniciada", "analisada_front"]⟩ :=
  (orch2_first_failure_halts cexOrch2 "T1" {}).2.1
    { success := true, analysis := some (.obj []), summary := some (.str "ok") }
    { success := false, error := some "timeout" }
    rfl rfl rfl rfl

end MAS
